import Mathlib

/-!
Verification development for the AetherBot radio recommendation subsystem.

This file gives a shallow embedding, in Lean 4, of the parts of the
repository that the specification's claims are about:

* `bin/utils/title_processor.py` (`TitleProcessor`)
* `bin/cogs/music/radio/content_analyzer.py` (`ContentAnalyzer`)
* `bin/cogs/music/radio/recommendation_engine.py` (`RecommendationEngine`)
* `bin/cogs/music/radio/radio_core.py` (`RadioCore`)

Modelling conventions:

* Python strings are Lean `String`s; character-level scans work on `List Char`.
  Case mapping and character-class tests are modelled at the ASCII level
  (`str.lower`, `str.isupper`, `\w`, `\s` agree with this model on ASCII text).
* Python floats are modelled as exact rationals (`ℚ`).  All constants used by
  the code (0.45, 0.35, 0.2, 0.5, 0.7, 0.8, 0.4) are written as the exact
  rationals they denote; comparisons in the claims are made far from rounding
  boundaries, so the exact-rational model agrees with IEEE double evaluation
  on every concrete input used below.
* `difflib.SequenceMatcher(None, a, b).ratio()` is modelled faithfully after
  CPython's implementation (the `b2j` index of `b`, the `find_longest_match`
  dynamic-programming loop with its tie-breaking, the equal-element extension
  loops, and the divide-and-conquer accumulation of matching blocks).  With
  `isjunk = None` the `bjunk` set is empty; the autojunk "popular element"
  rule (only active when `len(b) >= 200`) is included in the `b2j` index.
* Fallible/injected collaborators (the YouTube search client, the injected
  `TitleProcessor`/`ContentAnalyzer` instances of `RecommendationEngine`) are
  modelled as function parameters; a search call that may raise is
  `String → Nat → Except Unit (List SearchResult)`.
-/

set_option maxRecDepth 10000

/-! ## Python string primitives (ASCII model) -/

/-- Python whitespace characters (`str.split()`, `str.strip()`, `\s`). -/
def pyIsSpace (c : Char) : Bool :=
  c = ' ' || c = '\t' || c = '\n' || c = '\r' || c = '\x0b' || c = '\x0c'

/-- ASCII lowercase letter. -/
def pyIsLower (c : Char) : Bool := 'a' ≤ c && c ≤ 'z'

/-- ASCII uppercase letter. -/
def pyIsUpperChar (c : Char) : Bool := 'A' ≤ c && c ≤ 'Z'

/-- ASCII letter. -/
def pyIsAlpha (c : Char) : Bool := pyIsLower c || pyIsUpperChar c

/-- ASCII digit. -/
def pyIsDigit (c : Char) : Bool := '0' ≤ c && c ≤ '9'

/-- Regex `\w` character class (ASCII): letters, digits, underscore. -/
def pyIsWordChar (c : Char) : Bool := pyIsAlpha c || pyIsDigit c || c = '_'

/-- Python `str.lower()` (ASCII).  `Char.toLower` lowers exactly the ASCII
uppercase range, matching Python on ASCII text. -/
def pyLower (s : String) : String := String.mk (s.data.map Char.toLower)

/-- Python `str.isupper()`: at least one cased character, and no cased
character is lowercase (ASCII model: cased = letter). -/
def pyIsUpper (s : String) : Bool :=
  s.data.any pyIsAlpha && !(s.data.any pyIsLower)

/-- Substring scan: does `pat` occur (contiguously) in the list? -/
def strContainsAux (pat : List Char) : List Char → Bool
  | [] => pat.isEmpty
  | c :: cs => pat.isPrefixOf (c :: cs) || strContainsAux pat cs

/-- Python `sub in s` substring test. -/
def strContains (s sub : String) : Bool := strContainsAux sub.data s.data

/-- Python `s.strip()`. -/
def pyStrip (s : String) : String :=
  String.mk (((s.data.dropWhile pyIsSpace).reverse.dropWhile pyIsSpace).reverse)

/-- Python `' '.join(...)`-style joining with a separator. -/
def joinWith (sep : String) : List String → String
  | [] => ""
  | [x] => x
  | x :: xs => x ++ sep ++ joinWith sep xs

/-- Whitespace splitting accumulator (`cur` holds the current word,
reversed). -/
def pySplitWSAux (cur : List Char) : List Char → List String
  | [] => if cur.isEmpty then [] else [String.mk cur.reverse]
  | c :: cs =>
    if pyIsSpace c then
      (if cur.isEmpty then pySplitWSAux [] cs
       else String.mk cur.reverse :: pySplitWSAux [] cs)
    else pySplitWSAux (c :: cur) cs

/-- Python `s.split()`: split on whitespace runs, dropping empty pieces. -/
def pySplitWS (s : String) : List String := pySplitWSAux [] s.data

/-- Separator splitting, fuel-structural (each step consumes at least one
character, so `length + 1` fuel never runs out; `acc` holds the current
piece, reversed). -/
def splitListAux (sep : List Char) : Nat → List Char → List Char → List (List Char)
  | 0, acc, rest => [acc.reverse ++ rest]
  | _ + 1, acc, [] => [acc.reverse]
  | fuel + 1, acc, c :: cs =>
    if sep.isPrefixOf (c :: cs) then
      acc.reverse :: splitListAux sep fuel [] ((c :: cs).drop sep.length)
    else splitListAux sep fuel (c :: acc) cs

/-- Python `s.split(sep)` for a non-empty separator (all occurrences). -/
def pySplit (s sep : String) : List String :=
  match sep.data with
  | [] => [s]
  | _ => (splitListAux sep.data (s.data.length + 1) [] s.data).map String.mk

/-- Python `s.split(sep, 1)`: at most one split, at the first occurrence. -/
def pySplitOnce (s sep : String) : List String :=
  match pySplit s sep with
  | [] => [s]
  | [x] => [x]
  | x :: rest => [x, joinWith sep rest]

/-- One non-overlapping left-to-right replacement pass (fuel-structural;
the pattern `p :: ps` is non-empty, so every step consumes at least one
character and `length + 1` fuel never runs out). -/
def pyReplaceAux (p : Char) (ps : List Char) : Nat → List Char → List Char
  | 0, l => l
  | _ + 1, [] => []
  | fuel + 1, c :: cs =>
    if (p :: ps).isPrefixOf (c :: cs) then
      pyReplaceAux p ps fuel (cs.drop ps.length)
    else
      c :: pyReplaceAux p ps fuel cs

/-- Python `s.replace(pat, "")` (delete all non-overlapping occurrences,
scanning left to right).  An empty pattern is returned unchanged (the code
never replaces an empty pattern). -/
def pyReplace (s pat : String) : String :=
  match pat.data with
  | [] => s
  | p :: ps => String.mk (pyReplaceAux p ps (s.data.length + 1) s.data)

/-- Count of non-overlapping occurrences, scanning left to right
(fuel-structural, same fuel argument as `pyReplaceAux`). -/
def pyCountAux (p : Char) (ps : List Char) : Nat → List Char → Nat
  | 0, _ => 0
  | _ + 1, [] => 0
  | fuel + 1, c :: cs =>
    if (p :: ps).isPrefixOf (c :: cs) then
      pyCountAux p ps fuel (cs.drop ps.length) + 1
    else
      pyCountAux p ps fuel cs

/-- Python `s.count(sub)` for non-empty `sub`. -/
def pyCount (s sub : String) : Nat :=
  match sub.data with
  | [] => 0
  | p :: ps => pyCountAux p ps (s.data.length + 1) s.data

/-- Index of the first occurrence of `sub` in `s` (Python `s.find(sub)`,
with `none` for `-1`). -/
def pyFindAux (pat : List Char) : List Char → Nat → Option Nat
  | [], i => if pat.isEmpty then some i else none
  | c :: cs, i =>
    if pat.isPrefixOf (c :: cs) then some i else pyFindAux pat cs (i + 1)

/-- Python `s.find(sub)` as an `Option`. -/
def pyFind (s sub : String) : Option Nat := pyFindAux sub.data s.data 0

/-- Python `str.title()` (ASCII): uppercase every letter that follows a
non-letter, lowercase the rest. -/
def pyTitleAux : Bool → List Char → List Char
  | _, [] => []
  | prevAlpha, c :: cs =>
    if pyIsAlpha c then
      (if prevAlpha then c.toLower else c.toUpper) :: pyTitleAux true cs
    else
      c :: pyTitleAux false cs

/-- Python `str.title()` (ASCII model). -/
def pyTitle (s : String) : String := String.mk (pyTitleAux false s.data)

/-- Python truthiness of an optional string (`None` and `""` are falsy). -/
def pyTruthy : Option String → Bool
  | none => false
  | some s => s ≠ ""

/-! ## difflib.SequenceMatcher (CPython algorithm) -/

/-- Ascending positions of `c` in `b` (the `b2j` entry for `c`). -/
def charPositions (c : Char) (b : List Char) : List Nat :=
  (List.range b.length).filter (fun j => b.getD j ' ' = c)

/-- The `b2j` index after `__chain_b`: with `isjunk = None` no junk is
removed; when `autojunk` is active (`len(b) >= 200`) elements occurring more
than `len(b) // 100 + 1` times are "popular" and dropped from the index. -/
def b2jOf (b : List Char) (c : Char) : List Nat :=
  let pos := charPositions c b
  if b.length ≥ 200 && pos.length > b.length / 100 + 1 then [] else pos

/-- One row (`for j in b2j.get(a[i], [])`) of `find_longest_match`'s DP loop:
`j < blo` is skipped, `j >= bhi` breaks, otherwise
`k = j2len.get(j-1, 0) + 1` (with the Python key `-1` naturally absent),
`newj2len[j] = k`, and the best block is updated on `k > best_size`. -/
def flmRow (j2len : List (Nat × Nat)) (i blo bhi : Nat) :
    List Nat → List (Nat × Nat) → Nat × Nat × Nat → List (Nat × Nat) × (Nat × Nat × Nat)
  | [], acc, best => (acc, best)
  | j :: js, acc, best =>
    if j < blo then flmRow j2len i blo bhi js acc best
    else if bhi ≤ j then (acc, best)
    else
      let k := (if j = 0 then 0 else (List.lookup (j - 1) j2len).getD 0) + 1
      let best' := if k > best.2.2 then (i + 1 - k, j + 1 - k, k) else best
      flmRow j2len i blo bhi js ((j, k) :: acc) best'

/-- Leftward equal-element extension of the best block (`bjunk` is empty
with `isjunk = None`, so the non-junk extension loop is a plain equality
loop and the junk loops never fire).  Structural on `bi`, which the loop
decrements. -/
def flmExtendLeft (a b : List Char) (alo blo : Nat) : Nat → Nat → Nat → Nat × Nat × Nat
  | 0, bj, sz => (0, bj, sz)
  | bi + 1, bj, sz =>
    if alo < bi + 1 ∧ blo < bj ∧ a.getD bi ' ' = b.getD (bj - 1) ' ' then
      flmExtendLeft a b alo blo bi (bj - 1) (sz + 1)
    else (bi + 1, bj, sz)

/-- Rightward equal-element extension of the best block (fuel-structural;
each step grows `sz` while `bi + sz < ahi` holds, so `ahi + 1` fuel never
runs out). -/
def flmExtendRight (a b : List Char) (ahi bhi : Nat) (bi bj : Nat) : Nat → Nat → Nat
  | 0, sz => sz
  | fuel + 1, sz =>
    if bi + sz < ahi ∧ bj + sz < bhi ∧ a.getD (bi + sz) ' ' = b.getD (bj + sz) ' ' then
      flmExtendRight a b ahi bhi bi bj fuel (sz + 1)
    else sz

/-- CPython `SequenceMatcher.find_longest_match(alo, ahi, blo, bhi)`:
returns `(i, j, size)`. -/
def findLongestMatch (a b : List Char) (alo ahi blo bhi : Nat) : Nat × Nat × Nat :=
  let step := fun (st : List (Nat × Nat) × (Nat × Nat × Nat)) (i : Nat) =>
    flmRow st.1 i blo bhi (b2jOf b (a.getD i ' ')) [] st.2
  let res := (List.range' alo (ahi - alo)).foldl step ([], (alo, blo, 0))
  let (bi, bj, sz) := res.2
  let (bi, bj, sz) := flmExtendLeft a b alo blo bi bj sz
  (bi, bj, flmExtendRight a b ahi bhi bi bj (ahi + 1) sz)

/-- Total size of all matching blocks (the `sum(size for ... )` that `ratio`
uses), by the `get_matching_blocks` divide and conquer around each longest
match.  The fuel bounds the recursion depth; every recursive call strictly
shrinks `(ahi - alo) + (bhi - blo)` (the found block has `size ≥ 1`), so an
initial fuel of `a.length + b.length + 1` never runs out. -/
def matchTotalFuel (a b : List Char) : Nat → Nat → Nat → Nat → Nat → Nat
  | 0, _, _, _, _ => 0
  | fuel + 1, alo, ahi, blo, bhi =>
    let m := findLongestMatch a b alo ahi blo bhi
    let i := m.1; let j := m.2.1; let k := m.2.2
    if k = 0 then 0
    else
      k + (if alo < i ∧ blo < j then matchTotalFuel a b fuel alo i blo j else 0)
        + (if i + k < ahi ∧ j + k < bhi then matchTotalFuel a b fuel (i + k) ahi (j + k) bhi else 0)

/-- Total matched size for two whole strings. -/
def difflibMatchTotal (a b : List Char) : Nat :=
  matchTotalFuel a b (a.length + b.length + 1) 0 a.length 0 b.length

/-- `difflib.SequenceMatcher(None, sa, sb).ratio()` as an exact rational:
`2*M / (len(a)+len(b))`, and `1.0` when both strings are empty
(CPython's `_calculate_ratio`). -/
def difflibRatioQ (sa sb : String) : ℚ :=
  let la := sa.data.length
  let lb := sb.data.length
  if la + lb = 0 then 1
  else (2 * (difflibMatchTotal sa.data sb.data : ℚ)) / (la + lb : ℚ)

/-! ## TitleProcessor (`bin/utils/title_processor.py`)

The constructor reads keyword lists from config with defaults; the fields
used by the claims (`title_extra_identifiers`, `genre_map`, `mood_map`,
`featuring_patterns`) are hard-coded in the source and reproduced here
verbatim, in source order (order matters for replacement and lookup). -/

namespace TitleProcessor

/-- `self.title_extra_identifiers`, in source order. -/
def title_extra_identifiers : List String :=
  ["[official music video]", "[official video]", "[music video]", "[audio]", "[lyrics]",
   "(official music video)", "(official video)", "(music video)", "(audio)", "(lyrics)",
   "| official music video", "| official video", "| music video", "| audio", "| lyrics",
   "official music video", "official video", "music video", "audio only", "lyrics",
   "[release]", "(release)", "| release",
   "[hd]", "(hd)", "| hd", "hd",
   "[4k]", "(4k)", "| 4k", "4k",
   "[bass boosted]", "(bass boosted)", "| bass boosted", "bass boosted",
   "[extended]", "(extended)", "| extended", "extended",
   "[remix]", "(remix)", "| remix",
   "[edit]", "(edit)", "| edit"]

/-- `self.genre_map`, in source (insertion) order. -/
def genre_map : List (String × List String) :=
  [("rock", ["rock", "alternative", "indie rock", "classic rock", "hard rock", "punk", "grunge"]),
   ("metal", ["metal", "heavy metal", "death metal", "black metal", "thrash metal", "metalcore"]),
   ("electronic", ["electronic", "electronica", "edm", "techno", "house", "trance", "dubstep", "drum and bass", "dnb"]),
   ("house", ["house", "deep house", "progressive house", "tech house", "future house"]),
   ("trance", ["trance", "uplifting trance", "vocal trance", "progressive trance"]),
   ("ambient", ["ambient", "chill", "downtempo", "lofi", "lo-fi", "chillhop"]),
   ("hip hop", ["hip hop", "rap", "trap", "gangsta rap", "boom bap", "drill"]),
   ("pop", ["pop", "pop rock", "synth pop", "k-pop", "j-pop", "dance pop"]),
   ("country", ["country", "country rock", "country pop", "bluegrass"]),
   ("jazz", ["jazz", "smooth jazz", "bebop", "swing"]),
   ("classical", ["classical", "orchestra", "symphony", "piano", "violin"]),
   ("blues", ["blues", "rhythm and blues", "r&b", "soul"]),
   ("reggae", ["reggae", "dancehall", "ska", "dub"]),
   ("folk", ["folk", "singer-songwriter", "acoustic", "indie folk"]),
   ("world", ["world", "latin", "afrobeat", "bossa nova", "samba"])]

/-- `self.all_genre_terms`: each main genre followed by its subgenres. -/
def all_genre_terms : List String :=
  genre_map.foldl (fun acc p => acc ++ [p.1] ++ p.2) []

/-- `self.mood_map`, in source order. -/
def mood_map : List (String × List String) :=
  [("energetic", ["energetic", "upbeat", "party", "dance", "hype", "workout", "energy", "powerful"]),
   ("relaxing", ["relaxing", "chill", "calm", "peaceful", "ambient", "sleep", "meditation", "relax"]),
   ("happy", ["happy", "cheerful", "uplifting", "positive", "fun", "joy", "bright", "feel good"]),
   ("sad", ["sad", "melancholic", "emotional", "heartbreak", "sorrow", "tear", "cry", "depression"]),
   ("romantic", ["romantic", "love", "passionate", "sensual", "intimate", "valentine", "romance"]),
   ("dark", ["dark", "intense", "aggressive", "angry", "rage", "fury", "heavy"]),
   ("focus", ["focus", "concentration", "study", "work", "productivity", "background"])]

/-- First close-delimiter index usable by the non-greedy regex `\[.*?\]`:
the first occurrence of `cl`, provided no newline comes before it
(`.` does not match a newline). -/
def findCloseIdx (cl : Char) : List Char → Option Nat
  | [] => none
  | c :: cs =>
    if c = cl then some 0
    else if c = '\n' then none
    else (findCloseIdx cl cs).map (· + 1)

/-- `re.sub(r'OP.*?CL', '', s)`: remove every leftmost-shortest delimited
segment, scanning left to right (fuel-structural; each step consumes at
least one character, so `length + 1` fuel never runs out). -/
def stripDelimited (op cl : Char) : Nat → List Char → List Char
  | 0, l => l
  | _ + 1, [] => []
  | fuel + 1, c :: cs =>
    if c = op then
      match findCloseIdx cl cs with
      | some i => stripDelimited op cl fuel (cs.drop (i + 1))
      | none => c :: stripDelimited op cl fuel cs
    else c :: stripDelimited op cl fuel cs

/-- `dropWhile` never lengthens a list (termination helper). -/
theorem dropWhileLenLe (p : Char → Bool) (cs : List Char) :
    (cs.dropWhile p).length ≤ cs.length := by
  induction cs with
  | nil => simp [List.dropWhile]
  | cons c cs ih =>
    simp only [List.dropWhile]
    split
    · simp only [List.length_cons]; omega
    · simp

/-- `re.sub(r'\s+', ' ', s)` accumulator: the flag records whether the
previous character was whitespace (in which case further whitespace is
absorbed into the already-emitted single space). -/
def collapseWSAux : Bool → List Char → List Char
  | _, [] => []
  | prevSpace, c :: cs =>
    if pyIsSpace c then
      (if prevSpace then collapseWSAux true cs else ' ' :: collapseWSAux true cs)
    else c :: collapseWSAux false cs

/-- `re.sub(r'\s+', ' ', s)`: collapse each whitespace run to one space. -/
def collapseWS (l : List Char) : List Char := collapseWSAux false l

/-- `TitleProcessor.extract_core_title`. -/
def extract_core_title (title : String) : String :=
  if title = "" then ""
  else
    let t := pyLower title
    let t := title_extra_identifiers.foldl (fun s rep => pyReplace s rep) t
    let t := String.mk (stripDelimited '[' ']' (t.data.length + 1) t.data)
    let t := String.mk (stripDelimited '(' ')' (t.data.length + 1) t.data)
    let t := String.mk (stripDelimited '|' '|' (t.data.length + 1) t.data)
    let t := String.mk (t.data.filter (fun c => pyIsWordChar c || pyIsSpace c || c = '-'))
    let t := String.mk (collapseWS t.data)
    pyStrip t

/-- Loop body of the bracket branch of `extract_artist`
(`for part in title.split("[")`). -/
def extractArtistBracketLoop : List String → Option String
  | [] => none
  | part :: rest =>
    if strContains part "]" && (["release", "feat", "ft"].any (fun x => strContains (pyLower part) x)) then
      extractArtistBracketLoop rest
    else if strContains part "]" then
      let cand := pyStrip ((pySplit part "]").headD "")
      if (pySplitWS cand).length ≤ 3 && cand.length > 2 then some cand
      else extractArtistBracketLoop rest
    else extractArtistBracketLoop rest

/-- Loop body of the featuring-marker branch of `extract_artist`
(`for marker in ["feat.", "ft.", "featuring"]`). -/
def extractArtistFeatLoop (title lower_title : String) : List String → Option String
  | [] => none
  | marker :: rest =>
    if strContains lower_title marker then
      match pySplitOnce lower_title marker with
      | [_, p1] =>
        let ap := pyStrip p1
        let ap := [")", "]", "-", "|"].foldl
          (fun s em => if strContains s em then pyStrip ((pySplit s em).headD "") else s) ap
        if ap.length > 2 && (pySplitWS ap).length ≤ 3 then
          match pyFind (pyLower title) ap with
          | some i => some (String.mk ((title.data.drop i).take ap.length))
          | none => some (pyTitle ap)
        else extractArtistFeatLoop title lower_title rest
      | _ => extractArtistFeatLoop title lower_title rest
    else extractArtistFeatLoop title lower_title rest

/-- `TitleProcessor.extract_artist`. -/
def extract_artist (title : String) : Option String :=
  if title = "" then none
  else
    let dash : Option String :=
      if strContains title " - " then
        let artist := pyStrip ((pySplit title " - ").headD "")
        if artist ≠ "" && artist.length > 1 && artist.length < 30 then some artist else none
      else none
    match dash with
    | some a => some a
    | none =>
      let bracket : Option String :=
        if strContains title "[" && strContains title "]" then
          extractArtistBracketLoop (pySplit title "[")
        else none
      match bracket with
      | some a => some a
      | none => extractArtistFeatLoop title (pyLower title) ["feat.", "ft.", "featuring"]

/-- The four `featuring_patterns`
(`feat\.?\s+(...)`, `ft\.?\s+(...)`, `featuring\s+(...)`, `with\s+(...)`):
marker text plus whether an optional dot follows. -/
def featuring_patterns : List (String × Bool) :=
  [("feat", true), ("ft", true), ("featuring", false), ("with", false)]

/-- Case-insensitive (ASCII) literal prefix test. -/
def ciPrefix : List Char → List Char → Bool
  | [], _ => true
  | _ :: _, [] => false
  | p :: ps, c :: cs => p.toLower = c.toLower && ciPrefix ps cs

/-- Try one featuring pattern at the current position: literal marker
(case-insensitive), optional `.`, `\s+`, then the greedy capture
`[^,\(\)\[\]]+`.  Returns the consumed length and the capture. -/
def featMatchAt (marker : List Char) (optDot : Bool) (s : List Char) : Option (Nat × List Char) :=
  if ciPrefix marker s then
    let rest := s.drop marker.length
    let dotLen := if optDot then (match rest with | '.' :: _ => 1 | _ => 0) else 0
    let rest := rest.drop dotLen
    let wsLen := (rest.takeWhile pyIsSpace).length
    if wsLen = 0 then none
    else
      let cap := (rest.drop wsLen).takeWhile
        (fun c => !(c = ',' || c = '(' || c = ')' || c = '[' || c = ']'))
      if cap.isEmpty then none
      else some (marker.length + dotLen + wsLen + cap.length, cap)
  else none

/-- `re.search`: start index of the leftmost match of a featuring pattern. -/
def featSearchStart (marker : List Char) (optDot : Bool) : List Char → Nat → Option Nat
  | [], _ => none
  | c :: cs, i =>
    if (featMatchAt marker optDot (c :: cs)).isSome then some i
    else featSearchStart marker optDot cs (i + 1)

/-- `re.findall`: all captures, resuming after each match's end.  Every
match consumes at least one character (`\s+` and the capture are
non-empty), so `length + 1` fuel never runs out. -/
def featFindAll (marker : List Char) (optDot : Bool) : Nat → List Char → List (List Char)
  | 0, _ => []
  | _ + 1, [] => []
  | fuel + 1, c :: cs =>
    match featMatchAt marker optDot (c :: cs) with
    | some (len, cap) => cap :: featFindAll marker optDot fuel (cs.drop (len - 1))
    | none => featFindAll marker optDot fuel cs

/-- End position of the anchored artist-prefix regex
`^\s*ARTIST(?:\s*[\-:]\s*|\s+)` in `cleanL` (both arguments lowercase). -/
def artistPrefixEnd (artistL cleanL : List Char) : Option Nat :=
  let ws0 := (cleanL.takeWhile pyIsSpace).length
  let rest := cleanL.drop ws0
  if artistL.isPrefixOf rest then
    let after := rest.drop artistL.length
    let base := ws0 + artistL.length
    let w1 := (after.takeWhile pyIsSpace).length
    match after.drop w1 with
    | c :: cs2 =>
      if c = '-' || c = ':' then
        some (base + w1 + 1 + (cs2.takeWhile pyIsSpace).length)
      else if w1 ≥ 1 then some (base + w1) else none
    | [] => if w1 ≥ 1 then some (base + w1) else none
  else none

/-- The `" - "` branch of `extract_song_title` when the artist is known. -/
def songFromDashEq (title a : String) : Option String :=
  if strContains title " - " then
    match pySplitOnce title " - " with
    | [p0, p1] => if pyLower (pyStrip p0) = pyLower a then some (pyStrip p1) else none
    | _ => none
  else none

/-- The artist-prefix-regex branch of `extract_song_title`. -/
def songFromArtistPrefix (clean_title a : String) : Option String :=
  match artistPrefixEnd (pyLower a).data (pyLower clean_title).data with
  | some e =>
    let song := pyStrip (String.mk (clean_title.data.drop e))
    if song ≠ "" then some song else none
  | none => none

/-- The featuring-pattern branch of `extract_song_title`
(text before the leftmost featuring match, per pattern in order). -/
def songFromFeatLoop (title : String) : List (String × Bool) → Option String
  | [] => none
  | (m, d) :: rest =>
    match featSearchStart m.data d title.data 0 with
    | some s =>
      let song := pyStrip (String.mk (title.data.take s))
      if song ≠ "" then some song else songFromFeatLoop title rest
    | none => songFromFeatLoop title rest

/-- `TitleProcessor.extract_song_title`. -/
def extract_song_title (title : String) (artist : Option String) : Option String :=
  if title = "" then none
  else
    let clean_title := extract_core_title title
    let stage1 : Option String :=
      match artist with
      | some a =>
        if a ≠ "" then
          match songFromDashEq title a with
          | some r => some r
          | none => songFromArtistPrefix clean_title a
        else none
      | none => none
    match stage1 with
    | some r => some r
    | none =>
      match songFromFeatLoop title featuring_patterns with
      | some r => some r
      | none =>
        if strContains title " - " then
          match pySplitOnce title " - " with
          | [_, p1] =>
            some (title_extra_identifiers.foldl
              (fun s extra => pyStrip (pyReplace s extra)) (pyStrip p1))
          | _ => some clean_title
        else some clean_title

/-- Regex `\b` at both ends of a term occurrence starting at `i`.  Every
term in the lexicons starts and ends with a word character, so the boundary
holds exactly when the neighbouring character is absent or non-word. -/
def wholeWordAt (term s : List Char) (i : Nat) : Bool :=
  term.isPrefixOf (s.drop i) &&
  (decide (i = 0) || !pyIsWordChar (s.getD (i - 1) ' ')) &&
  (decide (s.length ≤ i + term.length) || !pyIsWordChar (s.getD (i + term.length) ' '))

/-- `re.search(r'\b' + re.escape(term) + r'\b', s)` as a Boolean. -/
def containsWholeWord (term s : List Char) : Bool :=
  (List.range (s.length + 1)).any (wholeWordAt term s)

/-- `TitleProcessor.detect_genres`: whole-word genre-term matches, folded up
to their main genre (first matching entry of `genre_map`), deduplicated in
first-hit order. -/
def detect_genres (title : String) : List String :=
  if title = "" then []
  else
    let tl := pyLower title
    all_genre_terms.foldl (fun acc term =>
      if containsWholeWord term.data tl.data then
        match genre_map.find? (fun p => term = p.1 || term ∈ p.2) with
        | some p => if p.1 ∈ acc then acc else acc ++ [p.1]
        | none => if term ∈ acc then acc else acc ++ [term]
      else acc) []

/-- `TitleProcessor.detect_moods`: substring (not whole-word) keyword hits. -/
def detect_moods (title : String) : List String :=
  if title = "" then []
  else
    let tl := pyLower title
    mood_map.foldl (fun acc p =>
      if p.2.any (fun k => strContains tl k) then
        (if p.1 ∈ acc then acc else acc ++ [p.1])
      else acc) []

/-- The record produced by `TitleProcessor.parse_title_info`. -/
structure TitleInfo where
  artist : Option String
  song_title : Option String
  genres : List String
  moods : List String
  featuring_artists : List String
deriving Repr, DecidableEq

/-- `TitleProcessor.parse_title_info` (the memo cache is a pure
memoisation layer and is not modelled). -/
def parse_title_info (title : String) : TitleInfo :=
  if title = "" then ⟨none, none, [], [], []⟩
  else
    let artist := extract_artist title
    let feats := featuring_patterns.foldl (fun acc p =>
      acc ++ ((featFindAll p.1.data p.2 (title.data.length + 1) title.data).filterMap (fun m =>
        let ms := String.mk m
        if ms ≠ "" && ms.length > 1 then some (pyStrip ms) else none))) []
    { artist := artist
      song_title := extract_song_title title artist
      genres := detect_genres title
      moods := detect_moods title
      featuring_artists := feats }

/-- `TitleProcessor.get_song_fingerprint`. -/
def get_song_fingerprint (title : String) : String :=
  let info := parse_title_info title
  if pyTruthy info.artist && pyTruthy info.song_title then
    let a := String.mk ((pyLower (info.artist.getD "")).data.filter pyIsWordChar)
    let s := String.mk ((pyLower (info.song_title.getD "")).data.filter pyIsWordChar)
    a ++ "_" ++ s
  else
    String.mk ((extract_core_title title).data.filter pyIsWordChar)

/-- `TitleProcessor.calculate_similarity` (floats as exact rationals;
`consider_genre` defaults to `True` at every call site in the claims). -/
def calculate_similarity (title1 title2 : String) (consider_genre : Bool) : ℚ :=
  if title1 = "" ∨ title2 = "" then 0
  else
    let core_title1 := extract_core_title title1
    let core_title2 := extract_core_title title2
    if core_title1 = core_title2 then 1
    else
      let info1 := parse_title_info title1
      let info2 := parse_title_info title2
      let score : ℚ := 0
      let score :=
        if pyTruthy info1.artist ∧ pyTruthy info2.artist then
          let artist_similarity :=
            difflibRatioQ (pyLower (info1.artist.getD "")) (pyLower (info2.artist.getD ""))
          if pyTruthy info1.song_title ∧ pyTruthy info2.song_title ∧
             pyLower (info1.song_title.getD "") = pyLower (info2.song_title.getD "") ∧
             artist_similarity < 7/10 then
            score + (45/100) * artist_similarity * (1/2)
          else
            score + (45/100) * artist_similarity
        else score
      let score :=
        if pyTruthy info1.song_title ∧ pyTruthy info2.song_title then
          score + (35/100) *
            difflibRatioQ (pyLower (info1.song_title.getD "")) (pyLower (info2.song_title.getD ""))
        else score
      let score :=
        if consider_genre = true ∧ info1.genres ≠ [] ∧ info2.genres ≠ [] then
          (if info1.genres.any (· ∈ info2.genres) then score + 2/10 else score)
        else score
      let fingerprint1 := get_song_fingerprint title1
      let fingerprint2 := get_song_fingerprint title2
      let score :=
        if fingerprint1 = fingerprint2 ∧ pyTruthy info1.artist ∧ pyTruthy info2.artist ∧
           info1.artist ≠ info2.artist then
          score * (1/2)
        else score
      if score = 0 then difflibRatioQ core_title1 core_title2
      else min 1 score

end TitleProcessor

/-! ## ContentAnalyzer (`bin/cogs/music/radio/content_analyzer.py`)

`ContentAnalyzer` optionally holds a `TitleProcessor`; that injected,
optional collaborator is modelled as an `Option TPDeps` parameter.  Python
`set` iteration order is unspecified, so accumulated genre sets are
modelled as insertion-ordered duplicate-free lists; the claims about these
functions only concern membership, emptiness and the singleton result. -/

/-- The two `TitleProcessor` methods `ContentAnalyzer` calls on its
optional `title_processor`. -/
structure TPDeps where
  parse_title_info : String → TitleProcessor.TitleInfo
  detect_genres : String → List String

/-- The concrete `TitleProcessor` wired in by `RadioService`. -/
def realTP : TPDeps :=
  ⟨TitleProcessor.parse_title_info, TitleProcessor.detect_genres⟩

namespace ContentAnalyzer

/-- Module constant `GENRE_INDICATORS`, in source order. -/
def GENRE_INDICATORS : List (String × List String) :=
  [("hip hop", ["hip hop", "rap", "hiphop", "trap", "drill", "boom bap"]),
   ("pop", ["pop", "pop music", "top 40", "chart topping"]),
   ("rock", ["rock", "alternative", "indie rock", "punk", "metal", "hard rock"]),
   ("electronic", ["electronic", "edm", "dubstep", "house", "techno", "trance", "bass", "dnb", "drum and bass"]),
   ("r&b", ["r&b", "rnb", "soul", "rhythm and blues"]),
   ("country", ["country", "folk", "americana", "bluegrass"]),
   ("jazz", ["jazz", "blues", "swing", "bebop"]),
   ("classical", ["classical", "orchestra", "symphony", "chamber music"]),
   ("reggae", ["reggae", "dancehall", "ska", "dub"]),
   ("latin", ["latin", "salsa", "reggaeton", "bachata", "cumbia"])]

/-- Module constant `PLATFORMS_TO_GENRES`, in source order. -/
def PLATFORMS_TO_GENRES : List (String × String) :=
  [("monstercat", "electronic"), ("owsla", "electronic"), ("mad decent", "electronic"),
   ("spinnin", "electronic"), ("anjuna", "electronic"), ("hospital records", "electronic"),
   ("ovo", "hip hop"), ("def jam", "hip hop"), ("aftermath", "hip hop"),
   ("top dawg", "hip hop"), ("ysl", "hip hop"),
   ("fueled by ramen", "rock"), ("epitaph", "rock"), ("roadrunner", "rock"),
   ("ninja tune", "electronic"), ("warp", "electronic")]

/-- Module constant `GENRE_TERMS`, in source order. -/
def GENRE_TERMS : List String :=
  ["hip hop", "rap", "pop", "rock", "metal", "edm", "electronic",
   "r&b", "country", "jazz", "classical", "reggae", "latin",
   "house", "techno", "dubstep", "trap", "folk", "indie"]

/-- Module constant `GENRE_MAPPINGS`. -/
def GENRE_MAPPINGS : List (String × String) :=
  [("rap", "hip hop"), ("trap", "hip hop"), ("house", "electronic"),
   ("techno", "electronic"), ("dubstep", "electronic"), ("edm", "electronic"),
   ("metal", "rock")]

/-- Module constant `ARTIST_GENRE_MAPPING`, in source order. -/
def ARTIST_GENRE_MAPPING : List (String × List String) :=
  [("hip hop", ["kendrick", "drake", "j cole", "dababy", "jay-z", "kanye", "travis scott", "eminem"]),
   ("pop", ["taylor swift", "ariana", "justin", "ed sheeran", "billie eilish", "adele", "sia"]),
   ("rock", ["metallica", "iron maiden", "slayer", "nirvana", "foo fighters", "green day"]),
   ("electronic", ["avicii", "deadmau5", "skrillex", "tiesto", "martin garrix", "calvin harris"])]

/-- `album_indicators` local to `is_likely_music_content`, in source order. -/
def album_indicators : List String :=
  ["full album", "complete album", "entire album",
   "album mix", "full mixtape", "complete mixtape",
   "compilation", "greatest hits", "best of",
   "all songs", "all tracks", "discography",
   "album playlist", "complete collection",
   "mix 20", "power mix", "party mix", "edm mix",
   "dj mix", "remix compilation", "remix pack",
   "megamix", "mixtape", "nonstop", "continuous mix",
   "year mix", "summer mix", "winter mix", "spring mix", "fall mix"]

/-- `music_indicators` local to `is_likely_music_content`. -/
def music_indicators : List String :=
  ["official audio", "official music", "official video",
   "lyrics", "audio", "explicit", "clean version",
   "ft.", "feat.", "remix", "prod. by", "prod by"]

/-- `non_music_indicators` local to `is_likely_music_content`. -/
def non_music_indicators : List String :=
  ["reaction", "reacts", "react to", "reacting",
   "interview", "interviewing", "speaks to", "conversation",
   "explains", "review", "reviews", "reviewing",
   "breakdown", "breaks down", "analysis",
   "talking about", "discusses", "discussing",
   "performed live", "performance at", "performs at",
   "vs.", "versus", "against",
   "loves", "hates", "feelings", "thinks",
   "first time hearing", "first listen", "reaction to",
   "behind the scenes", "making of", "studio session",
   "recap", "highlights", "best moments"]

/-- Length indicators local to `is_likely_music_content`. -/
def length_indicators : List String :=
  ["hour", "1h", "2h", "3h", "4h", "5h", "6h",
   "min mix", "minute mix", "hour mix",
   "extended", "long", "marathon"]

/-- `artist_indicators` local to `is_likely_music_content`. -/
def artist_indicators : List String :=
  [" & ", " and ", " x ", " vs ", "featuring", "feat", "ft."]

/-- `re.search(r'\b20\d\d\b', s)`: a four-digit token `20dd` with word
boundaries on both sides. -/
def containsYear20xx (s : List Char) : Bool :=
  (List.range (s.length + 1)).any (fun i =>
    (match s.drop i with
     | '2' :: '0' :: c3 :: c4 :: _ => pyIsDigit c3 && pyIsDigit c4
     | _ => false) &&
    (decide (i = 0) || !pyIsWordChar (s.getD (i - 1) ' ')) &&
    (decide (s.length ≤ i + 4) || !pyIsWordChar (s.getD (i + 4) ' ')))

/-- `ContentAnalyzer.is_likely_music_content`.  The float comparison
`caps_count / len(words) > 0.4` is modelled exactly as
`2 * len(words) < 5 * caps_count` (for any word count a title can give,
the IEEE-double evaluation agrees with the exact ratio test). -/
def is_likely_music_content (tp : Option TPDeps) (title : String) : Bool :=
  let title_lower := pyLower title
  if album_indicators.any (fun k => strContains title_lower k) then false
  else
    let has_standard_format :=
      strContains title " - " ||
      (strContains title " by " && !(strContains title_lower "react"))
    let has_music_indicator := music_indicators.any (fun k => strContains title_lower k)
    if non_music_indicators.any (fun k => strContains title_lower k) then false
    else
      let words := pySplitWS title
      let caps_count := (words.filter (fun w => pyIsUpper w && w.length > 2)).length
      if 3 < words.length ∧ 2 * words.length < 5 * caps_count then false
      else
        let emoji_count := (title.data.filter (fun c => 127 < c.toNat)).length
        let exclamation_count := title.data.count '!'
        if 3 < emoji_count ∨ 3 < exclamation_count then false
        else if length_indicators.any (fun k => strContains title_lower k) then false
        else if containsYear20xx title_lower.data ∧
                (strContains title_lower "mix" ∨ strContains title_lower "set") then false
        else
          let artist_count := artist_indicators.foldl (fun n ind => n + pyCount title_lower ind) 0
          if 2 < artist_count then false
          else
            let has_artist_and_song :=
              match tp with
              | some t =>
                pyTruthy (t.parse_title_info title).artist &&
                pyTruthy (t.parse_title_info title).song_title
              | none => false
            has_standard_format || has_artist_and_song ||
              (has_music_indicator && emoji_count ≤ 2)

/-- `ContentAnalyzer.get_genre_from_search` (the `try` body cannot raise;
sets are modelled as insertion-ordered duplicate-free lists). -/
def get_genre_from_search (artist : String) (song_title : Option String) : List String :=
  if artist = "" then []
  else
    let artist_lower := pyLower artist
    let title_lower := if pyTruthy song_title then pyLower (song_title.getD "") else ""
    let combined_text := artist_lower ++ " " ++ title_lower
    let g1 := GENRE_INDICATORS.foldl (fun acc p =>
      if p.2.any (fun ind => strContains combined_text ind) then
        (if p.1 ∈ acc then acc else acc ++ [p.1])
      else acc) []
    PLATFORMS_TO_GENRES.foldl (fun acc p =>
      if strContains combined_text p.1 ∧ p.2 ∉ acc then acc ++ [p.2] else acc) g1

/-- `ContentAnalyzer._extract_song_title`. -/
def analyzer_extract_song_title (title artist : String) : Option String :=
  if strContains title " - " && strContains title artist then
    match pySplitOnce title " - " with
    | [_, p1] => some p1
    | _ => none
  else none

/-- `ContentAnalyzer.get_enhanced_genres`: union of four signal sources,
with `["trending"]` as the guaranteed non-empty fallback. -/
def get_enhanced_genres (tp : Option TPDeps) (title : String) (artist : Option String) :
    List String :=
  let title_lower := pyLower title
  let g1 : List String :=
    match tp with
    | some t =>
      let detected := t.detect_genres title
      if detected ≠ [] then
        detected.foldl (fun acc x => if x ∈ acc then acc else acc ++ [x]) []
      else []
    | none => []
  let g2 :=
    if pyTruthy artist then
      let artist_lower := pyLower (artist.getD "")
      ARTIST_GENRE_MAPPING.foldl (fun acc p =>
        if p.2.any (fun a => strContains artist_lower a) then
          (if p.1 ∈ acc then acc else acc ++ [p.1])
        else acc) g1
    else g1
  let g3 :=
    if pyTruthy artist then
      let a := artist.getD ""
      let search_genres := get_genre_from_search a (analyzer_extract_song_title title a)
      if search_genres ≠ [] then
        search_genres.foldl (fun acc x => if x ∈ acc then acc else acc ++ [x]) g2
      else g2
    else g2
  let g4 :=
    if g3 = [] then
      GENRE_TERMS.foldl (fun acc term =>
        if strContains title_lower term then
          let mapped := (GENRE_MAPPINGS.lookup term).getD term
          (if mapped ∈ acc then acc else acc ++ [mapped])
        else acc) g3
    else g3
  if g4 = [] then ["trending"] else g4

end ContentAnalyzer

/-! ## RecommendationEngine (`bin/cogs/music/radio/recommendation_engine.py`)

The engine's injected collaborators are parameters:
`search` models `self.youtube_service.search_songs` (an `Except` models a
call that raises), `parse` models `self.title_processor.parse_title_info`,
`isMusic` models `self.content_analyzer.is_likely_music_content`,
`enhanced_genres` models `self.content_analyzer.get_enhanced_genres`, and
`moods_of` models `self.title_processor.detect_moods`.  `random.shuffle`
and the unspecified iteration order of `list(set(...))` are modelled by an
arbitrary `shuffle` function applied to the deduplicated strategy list. -/

/-- A raw search result: `result.get('title', '')` (title with default) and
the optional `url` / `webpage_url` fields. -/
structure SearchResult where
  title : String
  url : Option String
  webpage_url : Option String
deriving Repr, DecidableEq

namespace RecommendationEngine

/-- `result.get('url') or result.get('webpage_url')` followed by the
`if song_url:` truthiness test: `some u` exactly when the accepted URL is
non-empty. -/
def get_song_url (r : SearchResult) : Option String :=
  let s :=
    match r.url with
    | some u => if u = "" then r.webpage_url else some u
    | none => r.webpage_url
  match s with
  | some u => if u = "" then none else some u
  | none => none

/-- `RecommendationEngine._is_valid_result` (the `get_safe_title_func`
call only feeds logging). -/
def is_valid_result (isMusic : String → Bool) (result_title current_title : String)
    (tried_titles : List String) : Bool :=
  if result_title ∈ tried_titles then false
  else if pyLower current_title = pyLower result_title then false
  else if !(isMusic result_title) then false
  else true

/-- `RecommendationEngine._is_same_artist`: `some true` / `some false` /
`none` for allowed-same-artist / rejected-same-artist / different-artist. -/
def is_same_artist (current_artist result_artist current_song_title result_song : Option String)
    (same_artist_count max_same_artist query_idx : Nat) : Option Bool :=
  if !(pyTruthy current_artist) || !(pyTruthy result_artist) then none
  else if pyLower (current_artist.getD "") ≠ pyLower (result_artist.getD "") then none
  else if pyTruthy current_song_title ∧ pyTruthy result_song ∧
          pyLower (current_song_title.getD "") = pyLower (result_song.getD "") then some false
  else if same_artist_count > max_same_artist ∧ query_idx > 0 then some false
  else some true

/-- The `for result in results` body of `_try_search_strategies`, threading
the mutable `tried_titles` set and `same_artist_count` counter. -/
def try_results (parse : String → TitleProcessor.TitleInfo) (isMusic : String → Bool)
    (current_title : String) (current_artist current_song_title : Option String)
    (max_same_artist query_idx : Nat) :
    List SearchResult → List String → Nat →
      Option (String × String) × List String × Nat
  | [], tried, cnt => (none, tried, cnt)
  | r :: rs, tried, cnt =>
    if !(is_valid_result isMusic r.title current_title tried) then
      try_results parse isMusic current_title current_artist current_song_title
        max_same_artist query_idx rs tried cnt
    else
      let tried' := r.title :: tried
      let result_info := parse r.title
      match is_same_artist current_artist result_info.artist current_song_title
          result_info.song_title cnt max_same_artist query_idx with
      | some false =>
        try_results parse isMusic current_title current_artist current_song_title
          max_same_artist query_idx rs tried' cnt
      | some true =>
        (match get_song_url r with
         | some u => (some (u, r.title), tried', cnt + 1)
         | none =>
           try_results parse isMusic current_title current_artist current_song_title
             max_same_artist query_idx rs tried' (cnt + 1))
      | none =>
        (match get_song_url r with
         | some u => (some (u, r.title), tried', cnt)
         | none =>
           try_results parse isMusic current_title current_artist current_song_title
             max_same_artist query_idx rs tried' cnt)

/-- The `for query_idx, search_query in enumerate(search_queries)` loop of
`_try_search_strategies`: a raised search error (`Except.error`) is caught
and the loop continues; empty results also continue. -/
def try_strategies_aux (search : String → Nat → Except Unit (List SearchResult))
    (parse : String → TitleProcessor.TitleInfo) (isMusic : String → Bool)
    (current_title : String) (current_artist current_song_title : Option String)
    (max_same_artist : Nat) :
    List String → Nat → List String → Nat →
      Option (String × String) × List String × Nat
  | [], _, tried, cnt => (none, tried, cnt)
  | q :: qs, query_idx, tried, cnt =>
    match search q 8 with
    | .error _ =>
      try_strategies_aux search parse isMusic current_title current_artist
        current_song_title max_same_artist qs (query_idx + 1) tried cnt
    | .ok [] =>
      try_strategies_aux search parse isMusic current_title current_artist
        current_song_title max_same_artist qs (query_idx + 1) tried cnt
    | .ok results =>
      match try_results parse isMusic current_title current_artist current_song_title
          max_same_artist query_idx results tried cnt with
      | (some found, tried', cnt') => (some found, tried', cnt')
      | (none, tried', cnt') =>
        try_strategies_aux search parse isMusic current_title current_artist
          current_song_title max_same_artist qs (query_idx + 1) tried' cnt'

/-- `RecommendationEngine._try_search_strategies` (the caller's
`random.shuffle` is applied before this function receives the list). -/
def try_search_strategies (search : String → Nat → Except Unit (List SearchResult))
    (parse : String → TitleProcessor.TitleInfo) (isMusic : String → Bool)
    (search_queries : List String) (current_title : String)
    (current_artist current_song_title : Option String)
    (tried_titles : List String) (same_artist_count max_same_artist : Nat) :
    Option (String × String) × List String × Nat :=
  try_strategies_aux search parse isMusic current_title current_artist
    current_song_title max_same_artist search_queries 0 tried_titles same_artist_count

/-- The fallback search query string of `_try_fallback_strategy`. -/
def fallback_query : String := "top singles 2024 official audio -mix -compilation"

/-- The `for result in results` body of `_try_fallback_strategy` (same
validity filter, no same-artist logic; a valid result without a URL is
recorded as tried and the scan continues). -/
def try_fallback_scan (isMusic : String → Bool) (current_title : String) :
    List SearchResult → List String → Option (String × String)
  | [], _ => none
  | r :: rs, tried =>
    if !(is_valid_result isMusic r.title current_title tried) then
      try_fallback_scan isMusic current_title rs tried
    else
      match get_song_url r with
      | some u => some (u, r.title)
      | none => try_fallback_scan isMusic current_title rs (r.title :: tried)

/-- `RecommendationEngine._try_fallback_strategy`: one fixed query with
limit 10; a raised error is caught and yields `none`. -/
def try_fallback (search : String → Nat → Except Unit (List SearchResult))
    (isMusic : String → Bool) (current_title : String) (tried_titles : List String) :
    Option (String × String) :=
  match search fallback_query 10 with
  | .error _ => none
  | .ok [] => none
  | .ok results => try_fallback_scan isMusic current_title results tried_titles

/-- `RecommendationEngine._generate_search_strategies`, ending with the
`list(set(...))` deduplication (set order is absorbed by the caller's
`shuffle`). -/
def generate_search_strategies (artist song_title : Option String)
    (genres moods : List String) : List String :=
  let a := artist.getD ""
  let st := song_title.getD ""
  let q : List String := []
  let q :=
    if pyTruthy artist then
      let exclude_term := if pyTruthy song_title then "-\"" ++ st ++ "\"" else ""
      q ++ [a ++ " songs official audio " ++ exclude_term,
            a ++ " single official audio " ++ exclude_term]
    else q
  let q :=
    if genres ≠ [] then
      (genres.take 2).foldl (fun acc genre =>
        acc ++ [genre ++ " music singles official audio -mix -compilation",
                genre ++ " official release -mix -compilation"]) q
    else q
  let q :=
    if genres ≠ [] ∧ pyTruthy song_title then
      let genre_str := genres.headD ""
      let simple_song := String.intercalate " " ((pySplitWS st).take 3)
      if simple_song ≠ "" then
        q ++ [genre_str ++ " songs like " ++ simple_song ++ " official audio -mix -compilation"]
      else q
    else q
  let q :=
    if genres ≠ [] then
      (genres.take 2).foldl (fun acc genre =>
        let acc := acc ++
          ["best " ++ genre ++ " songs 2024 official audio -mix -compilation -dj",
           "new " ++ genre ++ " singles 2024 -mix -compilation -dj"]
        if genre = "hip hop" then acc ++ ["rap singles 2024 official audio -mix -compilation"]
        else if genre = "electronic" then acc ++ ["electronic singles official audio -mix -compilation"]
        else if genre = "rock" then acc ++ ["rock singles official audio -mix -compilation"]
        else if genre = "pop" then acc ++ ["pop singles 2024 official audio -mix -compilation"]
        else acc) q
    else q
  let q :=
    if pyTruthy artist ∧ genres ≠ [] then
      let genre_str := genres.headD ""
      q ++ [genre_str ++ " artists like " ++ a ++ " singles official audio -mix",
            "if you like " ++ a ++ " single tracks official audio -mix"]
    else q
  let q :=
    if moods ≠ [] ∧ genres ≠ [] then
      q ++ [(moods.headD "") ++ " " ++ (genres.headD "") ++ " singles official audio -mix -compilation"]
    else if moods ≠ [] then
      q ++ [(moods.headD "") ++ " singles official audio -mix -compilation"]
    else q
  let q :=
    if q.length < 3 then
      let q := if pyTruthy artist then q ++ ["artists similar to " ++ a ++ " singles official audio -mix"] else q
      if genres ≠ [] then q ++ ["new " ++ (genres.headD "") ++ " singles 2024 -mix -compilation"] else q
    else q
  q.eraseDups

/-- `RecommendationEngine.find_similar_song`.  The last two parameters are
the injected callbacks of the Python signature (`get_safe_title_func` only
feeds logging; `is_recently_played_func` is never called by the engine). -/
def find_similar_song (search : String → Nat → Except Unit (List SearchResult))
    (parse : String → TitleProcessor.TitleInfo) (isMusic : String → Bool)
    (enhanced_genres : String → Option String → List String)
    (moods_of : String → List String)
    (shuffle : List String → List String)
    (title query : String) (guild_id : Nat) (str_guild_id : String)
    (get_safe_title_func : String → String)
    (is_recently_played_func : String → Bool) : Option (String × String) :=
  let song_info := parse title
  let artist := song_info.artist
  let song_title := song_info.song_title
  let genres := enhanced_genres title artist
  let moods := moods_of title
  let search_queries := shuffle (generate_search_strategies artist song_title genres moods)
  let res := try_search_strategies search parse isMusic search_queries title artist
    song_title [] 0 3
  match res.1 with
  | some r => some r
  | none => try_fallback search isMusic title res.2.1

end RecommendationEngine

/-! ## RadioCore (`bin/cogs/music/radio/radio_core.py`) -/

/-- The per-guild recently-played map `self.recently_played`
(`guild_id -> deque of (url, title)`); an absent guild is `none`. -/
def RPState : Type := Nat → Option (List (String × String))

namespace RadioCore

/-- `self.recently_played_max_size`. -/
def recently_played_max_size : Nat := 10

/-- `deque(maxlen=cap).append`: when the deque is full the leftmost
(oldest) element is discarded. -/
def dequeAppendMax (cap : Nat) (xs : List (String × String)) (x : String × String) :
    List (String × String) :=
  if xs.length < cap then xs ++ [x] else xs.tail ++ [x]

/-- `RadioCore.add_to_recently_played`: create the guild's deque on first
use, then append. -/
def add_to_recently_played (st : RPState) (guild_id : Nat) (url title : String) : RPState :=
  fun g =>
    if g = guild_id then
      some (dequeAppendMax recently_played_max_size ((st guild_id).getD []) (url, title))
    else st g

/-- The same-parsed-song-title check inside `is_recently_played`
(`info1['song_title'] and info2['song_title'] and` lowercase equality). -/
def song_title_near_match (title recent_title : String) : Bool :=
  let info1 := TitleProcessor.parse_title_info title
  let info2 := TitleProcessor.parse_title_info recent_title
  pyTruthy info1.song_title && pyTruthy info2.song_title &&
    (pyLower (info1.song_title.getD "") == pyLower (info2.song_title.getD ""))

/-- `RadioCore.is_recently_played`: exact membership in the recent titles,
else per recent title the same-song check or
`calculate_similarity(title, recent_title) > 0.8` (the hard-coded "high
similarity threshold"). -/
def is_recently_played (st : RPState) (guild_id : Nat) (title : String) : Bool :=
  match st guild_id with
  | none => false
  | some entries =>
    let recent_titles := entries.map Prod.snd
    if title ∈ recent_titles then true
    else
      recent_titles.any (fun recent_title =>
        song_title_near_match title recent_title ||
        decide (TitleProcessor.calculate_similarity title recent_title true > 8/10))

end RadioCore

/-! ## Claim C1 -/

namespace RecommendationEngine

/-- A result accepted by `_is_valid_result` is not the current song
(case-insensitively). -/
theorem valid_lower_ne (isMusic : String → Bool) (result_title current_title : String)
    (tried : List String) (h : is_valid_result isMusic result_title current_title tried = true) :
    pyLower current_title ≠ pyLower result_title := by
  unfold is_valid_result at h
  split at h
  · exact absurd h (by simp)
  · split at h
    · exact absurd h (by simp)
    · split at h
      · exact absurd h (by simp)
      · rename_i _ hne _
        exact hne

/-- Any pair returned from the strategy result loop passed
`_is_valid_result` against the current title. -/
theorem try_results_fst_some (parse : String → TitleProcessor.TitleInfo)
    (isMusic : String → Bool) (ct : String) (ca cs : Option String)
    (maxc idx : Nat) (results : List SearchResult) (tried : List String) (cnt : Nat)
    (u t : String)
    (h : (try_results parse isMusic ct ca cs maxc idx results tried cnt).1 = some (u, t)) :
    pyLower ct ≠ pyLower t := by
  induction results generalizing tried cnt with
  | nil => simp [try_results] at h
  | cons r rs ih =>
    rw [try_results] at h
    cases hvr : is_valid_result isMusic r.title ct tried with
    | false =>
      simp only [hvr, Bool.not_false, if_true] at h
      exact ih _ _ h
    | true =>
      simp only [hvr, Bool.not_true, if_false, Bool.false_eq_true] at h
      rcases hsa : is_same_artist ca (parse r.title).artist cs (parse r.title).song_title
          cnt maxc idx with _ | b
      · simp only [hsa] at h
        rcases hgu : get_song_url r with _ | uu
        · simp only [hgu] at h
          exact ih _ _ h
        · simp only [hgu] at h
          injection h with h'
          injection h' with hu ht
          subst ht
          exact valid_lower_ne isMusic r.title ct tried hvr
      · cases b with
        | false =>
          simp only [hsa] at h
          exact ih _ _ h
        | true =>
          simp only [hsa] at h
          rcases hgu : get_song_url r with _ | uu
          · simp only [hgu] at h
            exact ih _ _ h
          · simp only [hgu] at h
            injection h with h'
            injection h' with hu ht
            subst ht
            exact valid_lower_ne isMusic r.title ct tried hvr

/-- Any pair returned from the strategy loop passed `_is_valid_result`
against the current title. -/
theorem try_strategies_aux_fst_some (search : String → Nat → Except Unit (List SearchResult))
    (parse : String → TitleProcessor.TitleInfo) (isMusic : String → Bool)
    (ct : String) (ca cs : Option String) (maxc : Nat)
    (qs : List String) (idx : Nat) (tried : List String) (cnt : Nat) (u t : String)
    (h : (try_strategies_aux search parse isMusic ct ca cs maxc qs idx tried cnt).1 = some (u, t)) :
    pyLower ct ≠ pyLower t := by
  induction qs generalizing idx tried cnt with
  | nil => simp [try_strategies_aux] at h
  | cons q rest ih =>
    rw [try_strategies_aux] at h
    rcases hs : search q 8 with e | results
    · simp only [hs] at h
      exact ih _ _ _ h
    · rcases results with _ | ⟨r0, rrest⟩
      · simp only [hs] at h
        exact ih _ _ _ h
      · simp only [hs] at h
        rcases htr : try_results parse isMusic ct ca cs maxc idx (r0 :: rrest) tried cnt
          with ⟨found, tried', cnt'⟩
        rcases found with _ | fr
        · simp only [htr] at h
          exact ih _ _ _ h
        · simp only [htr] at h
          have : (try_results parse isMusic ct ca cs maxc idx (r0 :: rrest) tried cnt).1
              = some (u, t) := by
            rw [htr]
            exact h
          exact try_results_fst_some parse isMusic ct ca cs maxc idx _ tried cnt u t this

/-- Any pair returned from the fallback scan passed `_is_valid_result`
against the current title. -/
theorem try_fallback_scan_some (isMusic : String → Bool) (ct : String)
    (results : List SearchResult) (tried : List String) (u t : String)
    (h : try_fallback_scan isMusic ct results tried = some (u, t)) :
    pyLower ct ≠ pyLower t := by
  induction results generalizing tried with
  | nil => simp [try_fallback_scan] at h
  | cons r rs ih =>
    rw [try_fallback_scan] at h
    cases hvr : is_valid_result isMusic r.title ct tried with
    | false =>
      simp only [hvr, Bool.not_false, if_true] at h
      exact ih _ h
    | true =>
      simp only [hvr, Bool.not_true, if_false, Bool.false_eq_true] at h
      rcases hgu : get_song_url r with _ | uu
      · simp only [hgu] at h
        exact ih _ h
      · simp only [hgu] at h
        injection h with h'
        injection h' with hu ht
        subst ht
        exact valid_lower_ne isMusic r.title ct tried hvr

/-- Any pair returned by `_try_fallback_strategy` passed `_is_valid_result`
against the current title. -/
theorem try_fallback_some (search : String → Nat → Except Unit (List SearchResult))
    (isMusic : String → Bool) (ct : String) (tried : List String) (u t : String)
    (h : try_fallback search isMusic ct tried = some (u, t)) :
    pyLower ct ≠ pyLower t := by
  unfold try_fallback at h
  rcases hs : search fallback_query 10 with e | results
  · rw [hs] at h
    simp at h
  · rcases results with _ | ⟨r0, rrest⟩
    · rw [hs] at h
      simp at h
    · rw [hs] at h
      exact try_fallback_scan_some isMusic ct _ _ u t h

end RecommendationEngine

/-- C1: for every search-client behaviour (including raising ones), every
injected parser/analyzer, and every shuffle, `find_similar_song` never
returns a candidate pair `(u, t)` whose title `t` equals the reference
title case-insensitively — both the strategy path and the fallback path
reject any result with `t.lower() == title.lower()` in `_is_valid_result`
before acceptance. -/
theorem c1_find_similar_song_never_current_title
    (search : String → Nat → Except Unit (List SearchResult))
    (parse : String → TitleProcessor.TitleInfo) (isMusic : String → Bool)
    (enhanced_genres : String → Option String → List String)
    (moods_of : String → List String) (shuffle : List String → List String)
    (title query : String) (guild_id : Nat) (str_guild_id : String)
    (get_safe_title_func : String → String) (is_recently_played_func : String → Bool)
    (u t : String)
    (h : RecommendationEngine.find_similar_song search parse isMusic enhanced_genres
      moods_of shuffle title query guild_id str_guild_id get_safe_title_func
      is_recently_played_func = some (u, t)) :
    pyLower t ≠ pyLower title := by
  unfold RecommendationEngine.find_similar_song at h
  rcases hst : (RecommendationEngine.try_search_strategies search parse isMusic
      (shuffle (RecommendationEngine.generate_search_strategies (parse title).artist
        (parse title).song_title (enhanced_genres title (parse title).artist)
        (moods_of title)))
      title (parse title).artist (parse title).song_title [] 0 3).1 with _ | fr
  · simp only [hst] at h
    exact Ne.symm (RecommendationEngine.try_fallback_some search isMusic title _ u t h)
  · simp only [hst] at h
    rw [h] at hst
    exact Ne.symm (RecommendationEngine.try_strategies_aux_fst_some search parse isMusic
      title _ _ 3 _ 0 [] 0 u t hst)

/-- Concrete parser used by witnesses (an injected collaborator of the
engine; any function is admissible there). -/
def wParse : String → TitleProcessor.TitleInfo := fun _ => ⟨none, none, [], [], []⟩

/-- Concrete genre source used by witnesses. -/
def wGenres : String → Option String → List String := fun _ _ => ["trending"]

/-- Concrete mood source used by witnesses. -/
def wMoods : String → List String := fun _ => []

/-- Concrete search client used by witnesses: one candidate for every query. -/
def wSearchOne : String → Nat → Except Unit (List SearchResult) :=
  fun _ _ => .ok [⟨"Candidate Song", some "http:u", none⟩]

/-- Witness for C1 at a concrete run: the engine returns
`("http:u", "Candidate Song")` for reference title `"My Song"`, and the
theorem yields the case-insensitive title inequality. -/
theorem c1_witness : pyLower "Candidate Song" ≠ pyLower "My Song" :=
  c1_find_similar_song_never_current_title wSearchOne wParse (fun _ => true)
    wGenres wMoods id "My Song" "" 1 "1" id (fun _ => false) "http:u" "Candidate Song"
    (by decide)

/-! ## Claim C2 -/

/-- A concrete guild state: guild 1 has played `"Artist - Song One"`. -/
def c2ExampleState : RPState :=
  fun g => if g = 1 then some [("u", "Artist - Song One")] else none

/-- C2 counterexample: with history `[("u", "Artist - Song One")]`, the
title `"Artist - Song Two"` has similarity `57/80 = 0.7125` to the recent
title — above the claimed default threshold 0.6 (and the parsed song titles
differ, so only the similarity disjunct of the claim applies) — yet
`is_recently_played` returns `False`: the code compares against a
hard-coded `0.8`, not a configurable threshold defaulting to 0.6. -/
theorem c2_counterexample :
    TitleProcessor.calculate_similarity "Artist - Song Two" "Artist - Song One" true > 6/10 ∧
    RadioCore.song_title_near_match "Artist - Song Two" "Artist - Song One" = false ∧
    RadioCore.is_recently_played c2ExampleState 1 "Artist - Song Two" = false := by
  refine ⟨?_, ?_, ?_⟩
  · with_unfolding_all decide
  · with_unfolding_all decide
  · with_unfolding_all decide

/-- C2 (amended): `is_recently_played(guild_id, title)` returns `True`
exactly when the guild is present and the title is an exact member of the
guild's recent-title list, or its parsed song title is non-empty and equals
some recent entry's non-empty parsed song title case-insensitively, or
`calculate_similarity` between the title and some recent title exceeds the
hard-coded threshold `0.8`; otherwise (including for a guild with no
history) it returns `False`. -/
theorem c2_recently_played_characterization (st : RPState) (g : Nat) (title : String) :
    RadioCore.is_recently_played st g title = true ↔
      ∃ entries, st g = some entries ∧
        (title ∈ entries.map Prod.snd ∨
         ∃ rt ∈ entries.map Prod.snd,
           RadioCore.song_title_near_match title rt = true ∨
           TitleProcessor.calculate_similarity title rt true > 8/10) := by
  unfold RadioCore.is_recently_played
  cases hst : st g with
  | none => simp
  | some entries =>
    simp only [Option.some.injEq]
    constructor
    · intro h
      refine ⟨entries, rfl, ?_⟩
      by_cases hmem : title ∈ entries.map Prod.snd
      · exact Or.inl hmem
      · rw [if_neg hmem] at h
        right
        obtain ⟨rt, hrt, hcond⟩ := List.any_eq_true.mp h
        rw [Bool.or_eq_true] at hcond
        refine ⟨rt, hrt, ?_⟩
        rcases hcond with h1 | h2
        · exact Or.inl h1
        · exact Or.inr (of_decide_eq_true h2)
    · rintro ⟨entries2, he, hcase⟩
      subst he
      rcases hcase with hmem | ⟨rt, hrt, hcond⟩
      · rw [if_pos hmem]
      · by_cases hmem : title ∈ List.map Prod.snd entries
        · rw [if_pos hmem]
        · rw [if_neg hmem]
          refine List.any_eq_true.mpr ⟨rt, hrt, ?_⟩
          rw [Bool.or_eq_true]
          rcases hcond with h1 | h2
          · exact Or.inl h1
          · exact Or.inr (decide_eq_true h2)

/-! ## Claim C3 -/

/-- C3: the result of `find_similar_song` does not depend on the
`is_recently_played_func` argument — the callback is never invoked anywhere
in the engine, so two runs differing only in that callback return the same
value.  In particular (second conjunct), with a checker that reports
*every* title as recently played, the engine still returns a candidate:
a candidate whose title is in the guild's recently-played history can be
returned. -/
theorem c3_engine_ignores_recently_played_checker :
    (∀ (search : String → Nat → Except Unit (List SearchResult))
       (parse : String → TitleProcessor.TitleInfo) (isMusic : String → Bool)
       (enhanced_genres : String → Option String → List String)
       (moods_of : String → List String) (shuffle : List String → List String)
       (title query : String) (guild_id : Nat) (str_guild_id : String)
       (get_safe_title_func : String → String) (chk1 chk2 : String → Bool),
      RecommendationEngine.find_similar_song search parse isMusic enhanced_genres
        moods_of shuffle title query guild_id str_guild_id get_safe_title_func chk1 =
      RecommendationEngine.find_similar_song search parse isMusic enhanced_genres
        moods_of shuffle title query guild_id str_guild_id get_safe_title_func chk2) ∧
    RecommendationEngine.find_similar_song wSearchOne wParse (fun _ => true) wGenres
      wMoods id "My Song" "" 1 "1" id (fun _ => true) =
      some ("http:u", "Candidate Song") := by
  constructor
  · intro search parse isMusic enhanced_genres moods_of shuffle title query guild_id
      str_guild_id get_safe_title_func chk1 chk2
    rfl
  · decide

/-! ## Claim C4 -/

/-- C4 counterexample: `calculate_similarity` is not commutative.  For the
titles `"ab"` and `"bacb"` (no artists, song titles fall back to the core
titles), the score is `0.35 * ratio` where `difflib`'s
`SequenceMatcher.ratio` is asymmetric: `ratio("ab","bacb") = 2/3` but
`ratio("bacb","ab") = 1/3`, so the two similarity values are `7/30` and
`7/60`. -/
theorem c4_counterexample :
    TitleProcessor.calculate_similarity "ab" "bacb" true ≠
    TitleProcessor.calculate_similarity "bacb" "ab" true := by
  with_unfolding_all decide

/-- C4 (amended): `calculate_similarity` is commutative on every pair of
titles whose core titles coincide (both directions return 1.0, or 0.0 when
a title is empty); in general commutativity fails because the underlying
`difflib` sequence ratio is asymmetric. -/
theorem c4_commutative_on_equal_core_titles (a b : String) (g : Bool)
    (h : TitleProcessor.extract_core_title a = TitleProcessor.extract_core_title b) :
    TitleProcessor.calculate_similarity a b g = TitleProcessor.calculate_similarity b a g := by
  unfold TitleProcessor.calculate_similarity
  by_cases ha : a = ""
  · by_cases hb : b = ""
    · rw [if_pos (Or.inl ha), if_pos (Or.inl hb)]
    · rw [if_pos (Or.inl ha), if_pos (Or.inr ha)]
  · by_cases hb : b = ""
    · rw [if_pos (Or.inr hb), if_pos (Or.inl hb)]
    · have h1 : ¬(a = "" ∨ b = "") := by tauto
      have h2 : ¬(b = "" ∨ a = "") := by tauto
      rw [if_neg h1, if_neg h2, if_pos h, if_pos h.symm]

/-- Witness for the amended C4 at a concrete pair with equal core titles:
`"Song!"` and `"Song"` both normalise to `"song"`. -/
theorem c4_amended_witness :
    TitleProcessor.calculate_similarity "Song!" "Song" true =
    TitleProcessor.calculate_similarity "Song" "Song!" true :=
  c4_commutative_on_equal_core_titles "Song!" "Song" true (by decide)

/-! ## Claim C5 -/

namespace RecommendationEngine

/-- A client that raises on one query behaves exactly like a client that
returns no results for that query: the strategy loop catches the error,
keeps its state, and continues with the remaining strategies. -/
theorem try_strategies_aux_error_empty_congr
    (s1 s2 : String → Nat → Except Unit (List SearchResult)) (q0 : String)
    (h1 : ∀ q n, q ≠ q0 → s1 q n = s2 q n)
    (h2 : ∀ n, s1 q0 n = .error ())
    (h3 : ∀ n, s2 q0 n = .ok [])
    (parse : String → TitleProcessor.TitleInfo) (isMusic : String → Bool)
    (ct : String) (ca cs : Option String) (maxc : Nat) (qs : List String) :
    ∀ idx tried cnt,
      try_strategies_aux s1 parse isMusic ct ca cs maxc qs idx tried cnt =
      try_strategies_aux s2 parse isMusic ct ca cs maxc qs idx tried cnt := by
  induction qs with
  | nil => intro idx tried cnt; rfl
  | cons q rest ih =>
    intro idx tried cnt
    rw [try_strategies_aux, try_strategies_aux]
    by_cases hq : q = q0
    · subst hq
      rw [h2 8, h3 8]
      exact ih _ _ _
    · rw [h1 q 8 hq]
      cases hs : s2 q 8 with
      | error e => exact ih _ _ _
      | ok results =>
        cases results with
        | nil => exact ih _ _ _
        | cons r rs =>
          rcases htr : try_results parse isMusic ct ca cs maxc idx (r :: rs) tried cnt
            with ⟨found, tried', cnt'⟩
          cases found with
          | some fr => simp only [htr]
          | none =>
            simp only [htr]
            exact ih _ _ _

/-- The fallback strategy likewise treats a raising client and an
empty-result client identically. -/
theorem try_fallback_error_empty_congr
    (s1 s2 : String → Nat → Except Unit (List SearchResult)) (q0 : String)
    (h1 : ∀ q n, q ≠ q0 → s1 q n = s2 q n)
    (h2 : ∀ n, s1 q0 n = .error ())
    (h3 : ∀ n, s2 q0 n = .ok [])
    (isMusic : String → Bool) (ct : String) (tried : List String) :
    try_fallback s1 isMusic ct tried = try_fallback s2 isMusic ct tried := by
  unfold try_fallback
  by_cases hq : fallback_query = q0
  · rw [hq, h2 10, h3 10]
  · rw [h1 _ 10 hq]

end RecommendationEngine

/-- C5: an exception raised by the search provider while processing any one
strategy is caught and treated as no results for that strategy — a run
whose client raises on query `q0` returns exactly what a run whose client
returns `[]` on `q0` returns, with the remaining strategies (and the
fallback) still tried (first conjunct); and `find_similar_song` returns
`None` exactly when the whole strategy pass and then the fallback produce
no accepted candidate (second conjunct). -/
theorem c5_provider_error_recovered
    (s1 s2 : String → Nat → Except Unit (List SearchResult)) (q0 : String)
    (h1 : ∀ q n, q ≠ q0 → s1 q n = s2 q n)
    (h2 : ∀ n, s1 q0 n = .error ())
    (h3 : ∀ n, s2 q0 n = .ok []) :
    (∀ (parse : String → TitleProcessor.TitleInfo) (isMusic : String → Bool)
       (enhanced_genres : String → Option String → List String)
       (moods_of : String → List String) (shuffle : List String → List String)
       (title query : String) (guild_id : Nat) (str_guild_id : String)
       (get_safe_title_func : String → String) (chk : String → Bool),
      RecommendationEngine.find_similar_song s1 parse isMusic enhanced_genres moods_of
        shuffle title query guild_id str_guild_id get_safe_title_func chk =
      RecommendationEngine.find_similar_song s2 parse isMusic enhanced_genres moods_of
        shuffle title query guild_id str_guild_id get_safe_title_func chk) ∧
    (∀ (search : String → Nat → Except Unit (List SearchResult))
       (parse : String → TitleProcessor.TitleInfo) (isMusic : String → Bool)
       (enhanced_genres : String → Option String → List String)
       (moods_of : String → List String) (shuffle : List String → List String)
       (title query : String) (guild_id : Nat) (str_guild_id : String)
       (get_safe_title_func : String → String) (chk : String → Bool),
      RecommendationEngine.find_similar_song search parse isMusic enhanced_genres moods_of
        shuffle title query guild_id str_guild_id get_safe_title_func chk = none ↔
      ((RecommendationEngine.try_search_strategies search parse isMusic
          (shuffle (RecommendationEngine.generate_search_strategies (parse title).artist
            (parse title).song_title (enhanced_genres title (parse title).artist)
            (moods_of title)))
          title (parse title).artist (parse title).song_title [] 0 3).1 = none ∧
        RecommendationEngine.try_fallback search isMusic title
          (RecommendationEngine.try_search_strategies search parse isMusic
            (shuffle (RecommendationEngine.generate_search_strategies (parse title).artist
              (parse title).song_title (enhanced_genres title (parse title).artist)
              (moods_of title)))
            title (parse title).artist (parse title).song_title [] 0 3).2.1 = none)) := by
  constructor
  · intro parse isMusic enhanced_genres moods_of shuffle title query guild_id
      str_guild_id get_safe_title_func chk
    simp only [RecommendationEngine.find_similar_song, RecommendationEngine.try_search_strategies]
    rw [RecommendationEngine.try_strategies_aux_error_empty_congr s1 s2 q0 h1 h2 h3
      parse isMusic title (parse title).artist (parse title).song_title 3 _ 0 [] 0]
    rw [RecommendationEngine.try_fallback_error_empty_congr s1 s2 q0 h1 h2 h3 isMusic title _]
  · intro search parse isMusic enhanced_genres moods_of shuffle title query guild_id
      str_guild_id get_safe_title_func chk
    simp only [RecommendationEngine.find_similar_song, RecommendationEngine.try_search_strategies]
    cases hr : (RecommendationEngine.try_strategies_aux search parse isMusic title
        (parse title).artist (parse title).song_title 3
        (shuffle (RecommendationEngine.generate_search_strategies (parse title).artist
          (parse title).song_title (enhanced_genres title (parse title).artist)
          (moods_of title))) 0 [] 0).1 with
    | some r => simp [hr]
    | none => simp [hr]

/-- The distinguished query of the C5 witness (one of the strategies the
engine actually generates for the witness inputs). -/
def c5q0 : String := "trending music singles official audio -mix -compilation"

/-- Witness client that raises on `c5q0`. -/
def c5s1 : String → Nat → Except Unit (List SearchResult) :=
  fun q _ => if q = c5q0 then .error () else .ok [⟨"Candidate Song", some "http:u", none⟩]

/-- Witness client that returns no results on `c5q0`. -/
def c5s2 : String → Nat → Except Unit (List SearchResult) :=
  fun q _ => if q = c5q0 then .ok [] else .ok [⟨"Candidate Song", some "http:u", none⟩]

/-- Witness for C5: at the concrete clients above (one raising on a real
generated strategy, one returning no results for it), the engine returns
the same candidate. -/
theorem c5_witness :
    RecommendationEngine.find_similar_song c5s1 wParse (fun _ => true) wGenres wMoods id
      "My Song" "" 1 "1" id (fun _ => false) =
    RecommendationEngine.find_similar_song c5s2 wParse (fun _ => true) wGenres wMoods id
      "My Song" "" 1 "1" id (fun _ => false) :=
  (c5_provider_error_recovered c5s1 c5s2 c5q0
    (fun q n hq => by simp [c5s1, c5s2, hq])
    (fun n => by simp [c5s1])
    (fun n => by simp [c5s2])).1 wParse (fun _ => true) wGenres wMoods id
    "My Song" "" 1 "1" id (fun _ => false)

/-! ## Claim C6 -/

namespace RecommendationEngine

/-- When the client returns no results for every strategy query (limit 8),
the whole strategy pass returns `none` and leaves the tried-title set and
same-artist counter untouched. -/
theorem try_strategies_aux_all_empty
    (search : String → Nat → Except Unit (List SearchResult))
    (hempty : ∀ q, search q 8 = .ok [])
    (parse : String → TitleProcessor.TitleInfo) (isMusic : String → Bool)
    (ct : String) (ca cs : Option String) (maxc : Nat) (qs : List String) :
    ∀ idx tried cnt,
      try_strategies_aux search parse isMusic ct ca cs maxc qs idx tried cnt =
        (none, tried, cnt) := by
  induction qs with
  | nil => intro idx tried cnt; rfl
  | cons q rest ih =>
    intro idx tried cnt
    rw [try_strategies_aux, hempty q]
    exact ih _ _ _

end RecommendationEngine

/-- C6: if every generated strategy yields no results, `find_similar_song`
reduces to the single fallback attempt, entered with an *empty* tried-title
set; the fallback issues exactly the query
`"top singles 2024 official audio -mix -compilation"` with limit 10 and
scans its results with `try_fallback_scan` — the same
tried-title / current-title / music-content filter (`_is_valid_result`)
and URL-truthiness acceptance, with no same-artist logic — returning the
first acceptable candidate that has a URL, or `none`. -/
theorem c6_fallback_path
    (search : String → Nat → Except Unit (List SearchResult))
    (parse : String → TitleProcessor.TitleInfo) (isMusic : String → Bool)
    (enhanced_genres : String → Option String → List String)
    (moods_of : String → List String) (shuffle : List String → List String)
    (title query : String) (guild_id : Nat) (str_guild_id : String)
    (get_safe_title_func : String → String) (chk : String → Bool)
    (hempty : ∀ q, search q 8 = .ok []) :
    RecommendationEngine.find_similar_song search parse isMusic enhanced_genres moods_of
      shuffle title query guild_id str_guild_id get_safe_title_func chk =
      RecommendationEngine.try_fallback search isMusic title [] ∧
    RecommendationEngine.try_fallback search isMusic title [] =
      (match search "top singles 2024 official audio -mix -compilation" 10 with
       | .error _ => none
       | .ok [] => none
       | .ok results => RecommendationEngine.try_fallback_scan isMusic title results []) := by
  constructor
  · simp only [RecommendationEngine.find_similar_song,
      RecommendationEngine.try_search_strategies]
    rw [RecommendationEngine.try_strategies_aux_all_empty search hempty parse isMusic title
      (parse title).artist (parse title).song_title 3 _ 0 [] 0]
  · rfl

/-- Search client of the C6 witness: no results for any limit-8 strategy
query, two fallback results (limit 10) of which the first is filtered out. -/
def c6search : String → Nat → Except Unit (List SearchResult) :=
  fun _ n =>
    if n = 10 then .ok [⟨"BAD", some "u1", none⟩, ⟨"Good Song", some "u2", none⟩]
    else .ok []

/-- Witness for C6: with every strategy empty, the engine's result is the
fallback attempt's result (which here accepts `("u2", "Good Song")`,
skipping the non-music first candidate). -/
theorem c6_witness :
    RecommendationEngine.find_similar_song c6search wParse (fun t => t ≠ "BAD") wGenres
      wMoods id "My Song" "" 1 "1" id (fun _ => false) =
      RecommendationEngine.try_fallback c6search (fun t => t ≠ "BAD") "My Song" [] ∧
    RecommendationEngine.try_fallback c6search (fun t => t ≠ "BAD") "My Song" [] =
      some ("u2", "Good Song") :=
  ⟨(c6_fallback_path c6search wParse (fun t => t ≠ "BAD") wGenres wMoods id "My Song" ""
      1 "1" id (fun _ => false) (fun q => by simp [c6search])).1,
   by decide⟩

/-! ## Claim C7 -/

/-- C7 counterexample: the claim says a same-artist candidate whose parsed
song title equals the current song title case-insensitively is rejected
(`some false`).  With both parsed song titles the *empty string* (equal,
also case-insensitively), `_is_same_artist` accepts (`some true`): the
identical-song rejection is guarded by Python truthiness
(`current_song_title and result_song`), which empty strings fail.  (The
empty parsed song title is reachable: `parse_title_info("AB - ")` yields
artist `"AB"` and song title `""`.) -/
theorem c7_counterexample :
    RecommendationEngine.is_same_artist (some "ab") (some "ab") (some "") (some "")
      0 3 0 = some true ∧
    pyLower "" = pyLower "" ∧
    RecommendationEngine.is_same_artist (some "ab") (some "ab") (some "") (some "")
      0 3 0 ≠ some false ∧
    (TitleProcessor.parse_title_info "AB - ").artist = some "AB" ∧
    (TitleProcessor.parse_title_info "AB - ").song_title = some "" := by
  refine ⟨by decide, rfl, by decide, by decide, by decide⟩

/-- C7 (amended): for a candidate whose parsed artist equals the current
track's artist case-insensitively (both artist strings truthy), the
same-artist predicate (a) rejects when both parsed song titles are
*non-empty* and equal case-insensitively, (b) rejects when the strategy
index is greater than 0 and the running same-artist count exceeds the cap,
and (c) accepts when the strategy index is 0 and the candidate is not the
same non-empty song, regardless of the count. -/
theorem c7_same_artist_cases (ca ra cs rs : Option String) (cnt maxc idx : Nat)
    (hca : pyTruthy ca = true) (hra : pyTruthy ra = true)
    (heq : pyLower (ca.getD "") = pyLower (ra.getD "")) :
    (pyTruthy cs = true → pyTruthy rs = true →
      pyLower (cs.getD "") = pyLower (rs.getD "") →
      RecommendationEngine.is_same_artist ca ra cs rs cnt maxc idx = some false) ∧
    (idx > 0 → cnt > maxc →
      RecommendationEngine.is_same_artist ca ra cs rs cnt maxc idx = some false) ∧
    (idx = 0 →
      ¬(pyTruthy cs = true ∧ pyTruthy rs = true ∧
        pyLower (cs.getD "") = pyLower (rs.getD "")) →
      RecommendationEngine.is_same_artist ca ra cs rs cnt maxc idx = some true) := by
  unfold RecommendationEngine.is_same_artist
  rw [if_neg (by simp [hca, hra]), if_neg (by simp [heq])]
  refine ⟨?_, ?_, ?_⟩
  · intro h1 h2 h3
    rw [if_pos ⟨h1, h2, h3⟩]
  · intro h1 h2
    by_cases hsame : pyTruthy cs = true ∧ pyTruthy rs = true ∧
        pyLower (cs.getD "") = pyLower (rs.getD "")
    · rw [if_pos hsame]
    · rw [if_neg hsame, if_pos ⟨h2, h1⟩]
  · intro h0 hsame
    rw [if_neg hsame, if_neg (by omega)]

/-- Witness for the amended C7: a same-artist candidate with a different
song title at strategy index 0 is accepted even with a count far above the
cap. -/
theorem c7_witness :
    RecommendationEngine.is_same_artist (some "A") (some "a") (some "x") (some "y")
      99 3 0 = some true :=
  (c7_same_artist_cases (some "A") (some "a") (some "x") (some "y") 99 3 0
    (by decide) (by decide) (by decide)).2.2 rfl (by decide)

/-! ## Claim C8 -/

namespace RadioCore

/-- Iterated insertion through `add_to_recently_played`. -/
def add_entries (st : RPState) (guild_id : Nat) (es : List (String × String)) : RPState :=
  es.foldl (fun s e => add_to_recently_played s guild_id e.1 e.2) st

/-- One bounded append keeps the length within a positive capacity. -/
theorem dequeAppendMax_length_le (cap : Nat) (hcap : 0 < cap)
    (xs : List (String × String)) (x : String × String) (hxs : xs.length ≤ cap) :
    (dequeAppendMax cap xs x).length ≤ cap := by
  unfold dequeAppendMax
  split
  · simp only [List.length_append, List.length_cons, List.length_nil]
    omega
  · rename_i hlt
    simp only [List.length_append, List.length_cons, List.length_nil, List.length_tail]
    omega

end RadioCore

/-- C8: the per-guild recently-played history is bounded FIFO with capacity
`recently_played_max_size = 10`.  Inserting 11 entries into a fresh guild
leaves exactly the last 10, in insertion order (first conjunct), so exactly
`max_size` entries remain (second conjunct) and the oldest entry `e0` is no
longer present whenever it is not among the later ten (third conjunct);
and every single insertion preserves the invariant that no guild's history
exceeds the capacity (fourth conjunct). -/
theorem c8_history_bounded_fifo (st : RPState) (g : Nat)
    (e0 e1 e2 e3 e4 e5 e6 e7 e8 e9 e10 : String × String)
    (habsent : st g = none) :
    (RadioCore.add_entries st g [e0, e1, e2, e3, e4, e5, e6, e7, e8, e9, e10]) g =
      some [e1, e2, e3, e4, e5, e6, e7, e8, e9, e10] ∧
    (∀ xs, (RadioCore.add_entries st g [e0, e1, e2, e3, e4, e5, e6, e7, e8, e9, e10]) g =
      some xs → xs.length = RadioCore.recently_played_max_size) ∧
    (e0 ∉ [e1, e2, e3, e4, e5, e6, e7, e8, e9, e10] →
      ∀ xs, (RadioCore.add_entries st g [e0, e1, e2, e3, e4, e5, e6, e7, e8, e9, e10]) g =
        some xs → e0 ∉ xs) ∧
    (∀ (st2 : RPState) (g2 : Nat) (url title : String),
      (∀ g3 ys, st2 g3 = some ys → ys.length ≤ RadioCore.recently_played_max_size) →
      ∀ g3 ys, (RadioCore.add_to_recently_played st2 g2 url title) g3 = some ys →
        ys.length ≤ RadioCore.recently_played_max_size) := by
  have main : (RadioCore.add_entries st g [e0, e1, e2, e3, e4, e5, e6, e7, e8, e9, e10]) g =
      some [e1, e2, e3, e4, e5, e6, e7, e8, e9, e10] := by
    simp [RadioCore.add_entries, RadioCore.add_to_recently_played,
      RadioCore.dequeAppendMax, RadioCore.recently_played_max_size, habsent]
  refine ⟨main, ?_, ?_, ?_⟩
  · intro xs hxs
    rw [main] at hxs
    injection hxs with h
    rw [← h]
    rfl
  · intro hnotin xs hxs
    rw [main] at hxs
    injection hxs with h
    rw [← h]
    exact hnotin
  · intro st2 g2 url title hinv g3 ys hys
    unfold RadioCore.add_to_recently_played at hys
    by_cases hg : g3 = g2
    · rw [if_pos hg] at hys
      injection hys with h
      rw [← h]
      apply RadioCore.dequeAppendMax_length_le _ (by decide)
      cases hst2 : st2 g2 with
      | none => simp
      | some ys2 =>
        simp only [hst2, Option.getD_some]
        exact hinv g2 ys2 hst2
    · rw [if_neg hg] at hys
      exact hinv g3 ys hys

/-- Witness for C8 at a concrete run: inserting eleven concrete entries
into an empty state leaves exactly the last ten. -/
theorem c8_witness :
    (RadioCore.add_entries (fun _ => none) 1
      [("u0", "t0"), ("u1", "t1"), ("u2", "t2"), ("u3", "t3"), ("u4", "t4"), ("u5", "t5"),
       ("u6", "t6"), ("u7", "t7"), ("u8", "t8"), ("u9", "t9"), ("u10", "t10")]) 1 =
      some [("u1", "t1"), ("u2", "t2"), ("u3", "t3"), ("u4", "t4"), ("u5", "t5"),
       ("u6", "t6"), ("u7", "t7"), ("u8", "t8"), ("u9", "t9"), ("u10", "t10")] :=
  (c8_history_bounded_fifo (fun _ => none) 1 ("u0", "t0") ("u1", "t1") ("u2", "t2")
    ("u3", "t3") ("u4", "t4") ("u5", "t5") ("u6", "t6") ("u7", "t7") ("u8", "t8")
    ("u9", "t9") ("u10", "t10") rfl).1

/-! ## Claim C9 -/

/-- C9 counterexample: in `"IYAZ - REPLAY"` two of the three word tokens
are all-uppercase words of length greater than 2 (66% > 40%), yet
`is_likely_music_content` returns `True` (with or without an injected
`TitleProcessor`): the clickbait check additionally requires *more than
three* word tokens (`len(words) > 3`), so the claim's "for every title"
fails. -/
theorem c9_counterexample :
    ContentAnalyzer.is_likely_music_content none "IYAZ - REPLAY" = true ∧
    ContentAnalyzer.is_likely_music_content (some realTP) "IYAZ - REPLAY" = true ∧
    2 * (pySplitWS "IYAZ - REPLAY").length <
      5 * ((pySplitWS "IYAZ - REPLAY").filter
        (fun w => pyIsUpper w && w.length > 2)).length := by
  refine ⟨by decide, by decide, by decide⟩

/-- C9 (amended): `is_likely_music_content(title)` returns `False` for
every title with more than three word tokens in which more than 40% of the
word tokens are all-uppercase words of length greater than 2, regardless
of any other positive signal in the title (and of the injected
`TitleProcessor`): every check preceding the clickbait test can only
return `False`, and the clickbait test then fires. -/
theorem c9_caps_clickbait_rejects (tp : Option TPDeps) (title : String)
    (hlen : 3 < (pySplitWS title).length)
    (hcaps : 2 * (pySplitWS title).length <
      5 * ((pySplitWS title).filter (fun w => pyIsUpper w && w.length > 2)).length) :
    ContentAnalyzer.is_likely_music_content tp title = false := by
  simp only [ContentAnalyzer.is_likely_music_content]
  by_cases h1 : (ContentAnalyzer.album_indicators.any
      (fun k => strContains (pyLower title) k)) = true
  · rw [if_pos h1]
  · rw [if_neg h1]
    by_cases h2 : (ContentAnalyzer.non_music_indicators.any
        (fun k => strContains (pyLower title) k)) = true
    · rw [if_pos h2]
    · rw [if_neg h2]
      rw [if_pos ⟨hlen, hcaps⟩]

/-- Witness for the amended C9: the spec's own example
`"FULL ALBUM MIX 2024 (3 HOURS)"` has six word tokens, four of them
all-caps words longer than two characters, and is classified as
non-music. -/
theorem c9_witness :
    ContentAnalyzer.is_likely_music_content (some realTP) "FULL ALBUM MIX 2024 (3 HOURS)"
      = false :=
  c9_caps_clickbait_rejects (some realTP) "FULL ALBUM MIX 2024 (3 HOURS)"
    (by decide) (by decide)

/-! ## Claim C10 -/

namespace ContentAnalyzer

/-- The artist-table fold adds nothing when no artist entry matches. -/
theorem artist_fold_no_hit (al : String) (l : List (String × List String))
    (acc : List String)
    (h : ∀ p ∈ l, p.2.any (fun a => strContains al a) = false) :
    l.foldl (fun acc p =>
      if p.2.any (fun a => strContains al a) then
        (if p.1 ∈ acc then acc else acc ++ [p.1])
      else acc) acc = acc := by
  induction l generalizing acc with
  | nil => rfl
  | cons p rest ih =>
    rw [List.foldl_cons]
    have hp := h p (List.mem_cons_self p rest)
    simp only [hp, Bool.false_eq_true, if_false]
    exact ih _ (fun q hq => h q (List.mem_cons_of_mem p hq))

/-- The flat genre-term fold adds nothing when no term occurs in the
title. -/
theorem terms_fold_no_hit (tl : String) (l : List String) (acc : List String)
    (h : ∀ term ∈ l, strContains tl term = false) :
    l.foldl (fun acc term =>
      if strContains tl term then
        (if ((GENRE_MAPPINGS.lookup term).getD term) ∈ acc then acc
         else acc ++ [(GENRE_MAPPINGS.lookup term).getD term])
      else acc) acc = acc := by
  induction l generalizing acc with
  | nil => rfl
  | cons term rest ih =>
    rw [List.foldl_cons]
    have hp := h term (List.mem_cons_self term rest)
    simp only [hp, Bool.false_eq_true, if_false]
    exact ih _ (fun q hq => h q (List.mem_cons_of_mem term hq))

/-- The final fallback guard always produces a non-empty list. -/
theorem fallback_guard_ne (l : List String) : (if l = [] then ["trending"] else l) ≠ [] := by
  by_cases h : l = []
  · rw [if_pos h]
    decide
  · rw [if_neg h]
    exact h

end ContentAnalyzer

/-- C10: `get_enhanced_genres` returns a non-empty list for every title,
optional artist and injected processor (first conjunct); and when each of
the four signal sources — the injected lexical genre detection, the
artist-to-genre table, the label/platform search table, and the flat
genre-term scan — contributes nothing, the result is exactly
`["trending"]` (second conjunct). -/
theorem c10_enhanced_genres_nonempty_and_fallback :
    (∀ (tp : Option TPDeps) (title : String) (artist : Option String),
      ContentAnalyzer.get_enhanced_genres tp title artist ≠ []) ∧
    (∀ (tp : Option TPDeps) (title : String) (artist : Option String),
      (∀ t, tp = some t → t.detect_genres title = []) →
      (∀ p ∈ ContentAnalyzer.ARTIST_GENRE_MAPPING,
        p.2.any (fun a => strContains (pyLower (artist.getD "")) a) = false) →
      ContentAnalyzer.get_genre_from_search (artist.getD "")
        (ContentAnalyzer.analyzer_extract_song_title title (artist.getD "")) = [] →
      (∀ term ∈ ContentAnalyzer.GENRE_TERMS, strContains (pyLower title) term = false) →
      ContentAnalyzer.get_enhanced_genres tp title artist = ["trending"]) := by
  constructor
  · intro tp title artist
    simp only [ContentAnalyzer.get_enhanced_genres]
    exact ContentAnalyzer.fallback_guard_ne _
  · intro tp title artist h1 h2 h3 h4
    simp only [ContentAnalyzer.get_enhanced_genres]
    cases tp with
    | none =>
      dsimp only
      by_cases hart : pyTruthy artist = true
      · rw [if_pos hart, if_pos hart]
        rw [ContentAnalyzer.artist_fold_no_hit (pyLower (artist.getD ""))
          ContentAnalyzer.ARTIST_GENRE_MAPPING [] h2]
        rw [h3]
        simp only [ne_eq, eq_self_iff_true, not_true_eq_false, if_false, if_true]
        rw [ContentAnalyzer.terms_fold_no_hit (pyLower title)
          ContentAnalyzer.GENRE_TERMS [] h4]
        simp
      · rw [if_neg hart, if_neg hart]
        simp only [ne_eq, eq_self_iff_true, not_true_eq_false, if_false, if_true]
        rw [ContentAnalyzer.terms_fold_no_hit (pyLower title)
          ContentAnalyzer.GENRE_TERMS [] h4]
        simp
    | some t =>
      dsimp only
      rw [h1 t rfl]
      simp only [ne_eq, eq_self_iff_true, not_true_eq_false, if_false, if_true]
      by_cases hart : pyTruthy artist = true
      · rw [if_pos hart, if_pos hart]
        rw [ContentAnalyzer.artist_fold_no_hit (pyLower (artist.getD ""))
          ContentAnalyzer.ARTIST_GENRE_MAPPING [] h2]
        rw [h3]
        simp only [ne_eq, eq_self_iff_true, not_true_eq_false, if_false, if_true]
        rw [ContentAnalyzer.terms_fold_no_hit (pyLower title)
          ContentAnalyzer.GENRE_TERMS [] h4]
        simp
      · rw [if_neg hart, if_neg hart]
        simp only [ne_eq, eq_self_iff_true, not_true_eq_false, if_false, if_true]
        rw [ContentAnalyzer.terms_fold_no_hit (pyLower title)
          ContentAnalyzer.GENRE_TERMS [] h4]
        simp

/-- Witness for C10: with no injected processor, title `"zzz"` and no
artist, every signal source is empty and the result is exactly
`["trending"]`. -/
theorem c10_witness :
    ContentAnalyzer.get_enhanced_genres none "zzz" none = ["trending"] :=
  c10_enhanced_genres_nonempty_and_fallback.2 none "zzz" none
    (fun t h => by cases h) (by decide) (by decide) (by decide)
